import Mathlib

namespace Jellyfin

/-! Shallow embedding of the PDF player plugin (src/plugins/pdfPlayer/plugin.js)
and of the emby-collapse custom element
(src/elements/emby-collapse/emby-collapse.js).

Modelling conventions, chosen to mirror the JavaScript source exactly:
JavaScript strings are lists of characters (`JStr`); JavaScript numbers are
exact integers (`Int`) in the page arithmetic, where every reachable value is
integral, and exact rationals (`Rat`) in the viewport-scale computation.
A canvas is opaque to the cache logic except for its dimensions, so the page
cache `this.pages` is modelled by its list of keys in insertion order, and
the canvas mutated by a render is threaded explicitly through the render
continuation.  Asynchronous continuations (the document-load callback of
`setCurrentSrc` and the `getPage` callback of `renderPage`) are modelled as
functions from the player state at resume time to the updated state, and
each render initiation performed by `loadPage` is recorded in an output list
of the page numbers handed to `renderPage`. -/

abbrev JStr := List Char

/-- Decimal digit character, code point 48 + d, as produced by JavaScript
number-to-string conversion for a single digit. -/
def digitChar (d : Nat) : Char := Char.ofNat (48 + d)

/-- Decimal rendering of a positive natural number, most significant digit
first.  The first argument is fuel; `natToChars` below always supplies enough
of it, and the recursion is structural so that the kernel can evaluate it. -/
def natToCharsAux : Nat → Nat → List Char
  | 0, _ => []
  | fuel + 1, n => if n = 0 then [] else natToCharsAux fuel (n / 10) ++ [digitChar (n % 10)]

/-- Decimal rendering of a natural number, as JavaScript `String(n)`. -/
def natToChars (n : Nat) : List Char := if n = 0 then ['0'] else natToCharsAux n n

/-- Decimal rendering of an integer, as JavaScript string conversion of an
integral number. -/
def intToChars (n : Int) : List Char :=
  if n < 0 then '-' :: natToChars n.natAbs else natToChars n.toNat

/-- Cache key construction: the string 'page' + number (plugin.js line 243,
with the constant from line 239). -/
def mkKey (n : Int) : JStr := 'p' :: 'a' :: 'g' :: 'e' :: intToChars n

/-- Numeric value of a digit character (code point minus 48). -/
def charToDigit (c : Char) : Nat := c.toNat - 48

/-- Decimal reading of a digit string, as JavaScript `parseInt` on a string of
decimal digits. -/
def parseDigits (cs : List Char) : Nat := cs.foldl (fun a c => a * 10 + charToDigit c) 0

/-- Cache key parsing: `parseInt(page.substr(4))` (plugin.js line 253).  The
first four characters (the 'page' marker) are dropped and the remainder is
read as a decimal integer, with an optional leading minus sign as `parseInt`
accepts.  Keys produced by `mkKey` always have a nonempty remainder. -/
def parseKey (k : JStr) : Int :=
  match k.drop 4 with
  | [] => 0
  | c :: cs => if c = '-' then -(parseDigits cs : Int) else (parseDigits (c :: cs) : Int)

/-- Opaque handle to a loaded PDF document: only `numPages` is read by the
player (`this.book.numPages`, plugin.js line 61). -/
structure Book where
  numPages : Nat
  deriving DecidableEq

/-- The played item; only `Path` is inspected by `canPlayItem`
(plugin.js lines 298-304). -/
structure Item where
  Path : Option JStr
  deriving DecidableEq

/-- The mutable fields of a `PdfPlayer` instance (plugin.js lines 24-50 and
177-229): current page index `progress`, the `loaded` and `cancellationToken`
flags, the page cache `pages` (modelled by its key list in insertion order),
the loaded document `book`, the key of the canvas currently shown in the
dialog (`replaceCanvas`, line 231-236), the current item, and whether the
window/dialog event listeners are bound and the dialog element exists. -/
structure PlayerState where
  progress : Int
  loaded : Bool
  cancellationToken : Bool
  pages : List JStr
  book : Option Book
  visible : Option JStr
  item : Option Item
  eventsBound : Bool
  mediaElement : Bool
  deriving DecidableEq

/-- `duration()` (plugin.js lines 60-62): `this.book ? this.book.numPages : 0`. -/
def PlayerState.duration (st : PlayerState) : Int :=
  match st.book with
  | some b => (b.numPages : Int)
  | none => 0

/-- The list of cache keys built at the top of `loadPage` (plugin.js lines
242-247): the requested page, then for i = 1, 2 the page number - i when
number - i > 0 and the page number + i when number + i < this.duration(),
in that push order. -/
def pageWindow (number dur : Int) : List JStr :=
  [mkKey number] ++
    (if number - 1 > 0 then [mkKey (number - 1)] else []) ++
    (if number + 1 < dur then [mkKey (number + 1)] else []) ++
    (if number - 2 > 0 then [mkKey (number - 2)] else []) ++
    (if number + 2 < dur then [mkKey (number + 2)] else [])

/-- One iteration of the cache-fill loop of `loadPage` (plugin.js lines
250-255): a missing key gets a fresh canvas (recorded by appending the key)
and `renderPage` is invoked with `parseInt(page.substr(4))` (recorded by
appending that number to the render log). -/
def loadStep (acc : List JStr × List Int) (page : JStr) : List JStr × List Int :=
  if page ∈ acc.1 then acc else (acc.1 ++ [page], acc.2 ++ [parseKey page])

/-- `loadPage(number)` (plugin.js lines 238-266): build the window key list,
render any page missing from the cache, make the requested page the visible
canvas (`replaceCanvas`), and delete every cached key outside the window.
Returns the updated state and the numbers passed to `renderPage`. -/
def PdfPlayer.loadPage (st : PlayerState) (number : Int) : PlayerState × List Int :=
  ({ st with
      pages := ((pageWindow number st.duration).foldl loadStep (st.pages, [])).1.filter
          (fun k => decide (k ∈ pageWindow number st.duration)),
      visible := some (mkKey number) },
    ((pageWindow number st.duration).foldl loadStep (st.pages, [])).2)

/-- `next()` (plugin.js lines 219-223). -/
def PdfPlayer.next (st : PlayerState) : PlayerState × List Int :=
  if st.progress = st.duration - 1 then (st, [])
  else
    ({ (PdfPlayer.loadPage st (st.progress + 2)).1 with progress := st.progress + 1 },
      (PdfPlayer.loadPage st (st.progress + 2)).2)

/-- `previous()` (plugin.js lines 225-229). -/
def PdfPlayer.previous (st : PlayerState) : PlayerState × List Int :=
  if st.progress = 0 then (st, [])
  else
    ({ (PdfPlayer.loadPage st st.progress).1 with progress := st.progress - 1 },
      (PdfPlayer.loadPage st st.progress).2)

/-- `stop()` (plugin.js lines 36-50): unbind events, close and drop the
dialog, and set the cancellation flag.  The cache and the book are not
cleared here. -/
def PdfPlayer.stop (st : PlayerState) : PlayerState :=
  { st with eventsBound := false, mediaElement := false, cancellationToken := true }

/-- Settlement state of the promise returned by `setCurrentSrc` to the caller
of `play`. -/
inductive Outcome where
  | pending
  | resolved
  deriving DecidableEq

/-- Result of the document fetch started by `pdfjs.getDocument`: the rejection
carries no information the player reads. -/
inductive LoadResult where
  | ok (book : Book)
  | err
  deriving DecidableEq

/-- The observable result of a `play`/`setCurrentSrc` cycle: final state, the
settlement of the returned promise, the page numbers whose render was started,
and how many document loads were issued. -/
structure PlayResult where
  state : PlayerState
  outcome : Outcome
  rendersStarted : List Int
  docLoadsStarted : Nat
  deriving DecidableEq

/-- The continuation of `downloadTask.promise.then(book => ...)`
(plugin.js lines 200-214), run when the document load resolves: it returns
immediately when `cancellationToken` is set (leaving the promise pending),
otherwise stores the book, sets `loaded`, loads either page
`startPositionTicks / 10000` (also stored into `progress`) or page 1, and
resolves.  `startPositionTicks` is a tick count; in every run that stays in
integer arithmetic it is a multiple of 10000. -/
def PdfPlayer.onDocumentLoaded (st : PlayerState) (book : Book) (startPositionTicks : Nat) :
    PlayerState × Outcome × List Int :=
  if st.cancellationToken then (st, Outcome.pending, [])
  else
    let st1 := { st with book := some book, loaded := true }
    let percentageTicks : Int := ((startPositionTicks / 10000 : Nat) : Int)
    if percentageTicks ≠ 0 then
      let r := PdfPlayer.loadPage st1 percentageTicks
      ({ r.1 with progress := percentageTicks }, Outcome.resolved, r.2)
    else
      let r := PdfPlayer.loadPage st1 1
      (r.1, Outcome.resolved, r.2)

/-- `setCurrentSrc(elem, options)` (plugin.js lines 177-217): store the item,
bind the events, issue one `getDocument`, and attach `onDocumentLoaded` as the
only settlement handler.  A rejected download therefore runs no code at all:
the returned promise stays pending and no further load is issued. -/
def PdfPlayer.setCurrentSrc (st : PlayerState) (item : Item) (startPositionTicks : Nat)
    (res : LoadResult) : PlayResult :=
  let st2 := { st with item := some item, eventsBound := true }
  match res with
  | LoadResult.err =>
      { state := st2, outcome := Outcome.pending, rendersStarted := [], docLoadsStarted := 1 }
  | LoadResult.ok book =>
      let r := PdfPlayer.onDocumentLoaded st2 book startPositionTicks
      { state := r.1, outcome := r.2.1, rendersStarted := r.2.2, docLoadsStarted := 1 }

/-- `play(options)` (plugin.js lines 24-34): reset progress, flags and cache,
create the dialog, and delegate to `setCurrentSrc`. -/
def PdfPlayer.play (st : PlayerState) (item : Item) (startPositionTicks : Nat)
    (res : LoadResult) : PlayResult :=
  let st1 : PlayerState :=
    { st with
        progress := 0
        loaded := false
        cancellationToken := false
        pages := []
        mediaElement := true }
  PdfPlayer.setCurrentSrc st1 item startPositionTicks res

/-- A canvas surface; `document.createElement('canvas')` yields the HTML
default size 300x150. -/
structure Canvas where
  width : Rat
  height : Rat
  deriving DecidableEq

def newCanvas : Canvas := { width := 300, height := 150 }

/-- A PDF page as returned by `book.getPage`: its scale-1 viewport size. -/
structure PdfPage where
  width : Rat
  height : Rat
  deriving DecidableEq

/-- The viewport-size query `dom.getWindowSize()`. -/
structure WindowSize where
  innerWidth : Rat
  innerHeight : Rat
  deriving DecidableEq

/-- `Math.min` on two exact rationals. -/
def jsMin (a b : Rat) : Rat := if a ≤ b then a else b

/-- The continuation of `this.book.getPage(number).then(page => ...)` inside
`renderPage` (plugin.js lines 268-292), run when the page object resolves:
the width and height quotients window/page are computed, the scale is their
minimum, and the canvas is resized to the scaled viewport before the draw is
issued.  The player state is returned untouched; note that this continuation
reads no flag of the state at all. -/
def PdfPlayer.renderPageContinuation (st : PlayerState) (canvas : Canvas) (page : PdfPage)
    (win : WindowSize) : PlayerState × Canvas :=
  (st,
    { canvas with
        width := page.width * jsMin (win.innerHeight / page.height) (win.innerWidth / page.width),
        height := page.height * jsMin (win.innerHeight / page.height) (win.innerWidth / page.width) })

/-- `canPlayMediaType(mediaType)` (plugin.js lines 294-296):
`(mediaType || '').toLowerCase() === 'book'`.  Lower-casing is modelled on the
ASCII letters, the only ones the compared literal contains. -/
def jsToLowerChar (c : Char) : Char :=
  if 'A' ≤ c ∧ c ≤ 'Z' then Char.ofNat (c.toNat + 32) else c

def jsToLower (s : JStr) : JStr := s.map jsToLowerChar

def bookStr : JStr := ['b', 'o', 'o', 'k']

def pdfStr : JStr := ['p', 'd', 'f']

/-- JavaScript `String.prototype.endsWith`. -/
def jsEndsWith (s suf : JStr) : Bool := decide (s.drop (s.length - suf.length) = suf)

def canPlayMediaType (mediaType : Option JStr) : Bool :=
  decide (jsToLower (mediaType.getD []) = bookStr)

/-- `canPlayItem(item)` (plugin.js lines 298-304):
`item.Path && item.Path.endsWith('pdf')`. -/
def canPlayItem (item : Item) : Bool :=
  match item.Path with
  | some p => jsEndsWith p pdfStr
  | none => false

/-! The emby-collapse custom element.  The element state records its own class
list, whether a `.collapseContent` child exists and its hide/expanded classes
and `expanded` property, the toggle icon state, how many toggle buttons have
been inserted and how many click listeners bound, and the `data-expanded`
attribute.  The 300 ms timeout continuations inside the slide helpers only
recompute the content's hide class from its `expanded` class; their settled
effect is folded into the helpers, and neither touches the element's own
class list. -/

def embyCollapseClass : JStr :=
  ['e', 'm', 'b', 'y', '-', 'c', 'o', 'l', 'l', 'a', 'p', 's', 'e']

def trueStr : JStr := ['t', 'r', 'u', 'e']

structure CollapseElem where
  classes : List JStr
  hasContent : Bool
  contentHidden : Bool
  contentHasExpandedClass : Bool
  contentExpanded : Bool
  iconExpanded : Bool
  buttons : Nat
  listeners : Nat
  dataExpanded : Option JStr
  deriving DecidableEq

/-- `slideDownToShow` (emby-collapse.js lines 10-34), with the settled effect
of its timeout. -/
def slideDownToShow (el : CollapseElem) : CollapseElem :=
  { el with contentHidden := false, contentHasExpandedClass := true, iconExpanded := true }

/-- `slideUpToHide` (emby-collapse.js lines 36-56), with the settled effect
of its timeout. -/
def slideUpToHide (el : CollapseElem) : CollapseElem :=
  { el with contentHasExpandedClass := false, contentHidden := true, iconExpanded := false }

/-- `onButtonClick` (emby-collapse.js lines 58-70). -/
def onButtonClick (el : CollapseElem) : CollapseElem :=
  if el.contentExpanded then slideUpToHide { el with contentExpanded := false }
  else slideDownToShow { el with contentExpanded := true }

/-- `attachedCallback` (emby-collapse.js lines 72-98): return at once when the
element already carries the emby-collapse class; otherwise add that class,
hide the content when present, insert the toggle button with its click
listener, and simulate a click when `data-expanded` is 'true'. -/
def attachedCallback (el : CollapseElem) : CollapseElem :=
  if embyCollapseClass ∈ el.classes then el
  else
    let el1 := { el with classes := el.classes ++ [embyCollapseClass] }
    let el2 := if el1.hasContent then { el1 with contentHidden := true } else el1
    let el3 := { el2 with buttons := el2.buttons + 1, listeners := el2.listeners + 1 }
    if el3.dataExpanded = some trueStr then onButtonClick el3 else el3

/-! Concrete states and inputs used by the scenario theorems and witnesses. -/

/-- A freshly constructed player instance: no field has been assigned yet. -/
def freshState : PlayerState :=
  { progress := 0, loaded := false, cancellationToken := false, pages := [],
    book := none, visible := none, item := none, eventsBound := false, mediaElement := false }

/-- A player with a loaded 10-page document, current page 9. -/
def tenPageState : PlayerState :=
  { progress := 8, loaded := true, cancellationToken := false, pages := [],
    book := some { numPages := 10 }, visible := none, item := none,
    eventsBound := true, mediaElement := true }

/-- The same 10-page player sitting on the last page. -/
def lastPageState : PlayerState :=
  { tenPageState with progress := 9 }

def moviePdf : JStr := ['m', 'o', 'v', 'i', 'e', '.', 'p', 'd', 'f']

def movieMkv : JStr := ['m', 'o', 'v', 'i', 'e', '.', 'm', 'k', 'v']

def bookUpper : JStr := ['B', 'o', 'o', 'k']

def exItem : Item := { Path := some moviePdf }

def exPage : PdfPage := { width := 100, height := 200 }

def exWin : WindowSize := { innerWidth := 500, innerHeight := 500 }

/-- State after `play` on a fresh instance with a 10-page document and no
start position. -/
def tenPageStart : PlayerState :=
  (PdfPlayer.play freshState exItem 0 (LoadResult.ok { numPages := 10 })).state

/-- `tenPageStart` after three calls to `next()`. -/
def tenPageAfter3Next : PlayerState :=
  (PdfPlayer.next (PdfPlayer.next (PdfPlayer.next tenPageStart).1).1).1

/-- An element that already went through one attachment. -/
def exCollapsed : CollapseElem :=
  { classes := [embyCollapseClass], hasContent := false, contentHidden := false,
    contentHasExpandedClass := false, contentExpanded := false, iconExpanded := false,
    buttons := 1, listeners := 1, dataExpanded := none }

/-! Helper lemmas about the key round trip. -/

theorem charToDigit_digitChar : ∀ d : Nat, d < 10 → charToDigit (digitChar d) = d := by decide

theorem digitChar_ne_dash : ∀ d : Nat, d < 10 → digitChar d ≠ '-' := by decide

theorem parseDigits_append (cs : List Char) (c : Char) :
    parseDigits (cs ++ [c]) = parseDigits cs * 10 + charToDigit c := by
  simp [parseDigits, List.foldl_append]

theorem parseDigits_natToCharsAux :
    ∀ fuel n : Nat, n ≤ fuel → parseDigits (natToCharsAux fuel n) = n := by
  intro fuel
  induction fuel with
  | zero =>
    intro n h
    have hn : n = 0 := by omega
    subst hn
    rfl
  | succ f ih =>
    intro n h
    by_cases hn : n = 0
    · subst hn
      rfl
    · rw [show natToCharsAux (f + 1) n = natToCharsAux f (n / 10) ++ [digitChar (n % 10)] from
        by simp [natToCharsAux, hn]]
      rw [parseDigits_append, ih (n / 10) (by omega), charToDigit_digitChar _ (by omega)]
      omega

theorem parseDigits_natToChars (n : Nat) : parseDigits (natToChars n) = n := by
  by_cases hn : n = 0
  · subst hn
    rfl
  · rw [natToChars, if_neg hn]
    exact parseDigits_natToCharsAux n n le_rfl

theorem natToCharsAux_ne_nil (fuel n : Nat) (h1 : 1 ≤ n) (h2 : n ≤ fuel) :
    natToCharsAux fuel n ≠ [] := by
  cases fuel with
  | zero => omega
  | succ f => simp [natToCharsAux, show ¬ n = 0 by omega]

theorem mem_natToCharsAux_ne_dash :
    ∀ fuel n c, c ∈ natToCharsAux fuel n → c ≠ '-' := by
  intro fuel
  induction fuel with
  | zero =>
    intro n c hc
    simp [natToCharsAux] at hc
  | succ f ih =>
    intro n c hc
    by_cases hn : n = 0
    · simp [natToCharsAux, hn] at hc
    · rw [show natToCharsAux (f + 1) n = natToCharsAux f (n / 10) ++ [digitChar (n % 10)] from
        by simp [natToCharsAux, hn]] at hc
      rcases List.mem_append.mp hc with hc | hc
      · exact ih _ _ hc
      · rw [List.mem_singleton.mp hc]
        exact digitChar_ne_dash _ (by omega)

theorem natToChars_head (m : Nat) : ∃ c cs, natToChars m = c :: cs ∧ c ≠ '-' := by
  by_cases hm : m = 0
  · exact ⟨'0', [], by simp [natToChars, hm], by decide⟩
  · rw [natToChars, if_neg hm]
    cases hx : natToCharsAux m m with
    | nil => exact absurd hx (natToCharsAux_ne_nil m m (by omega) le_rfl)
    | cons c cs =>
      refine ⟨c, cs, rfl, mem_natToCharsAux_ne_dash m m c ?_⟩
      rw [hx]
      exact List.mem_cons_self c cs

theorem parseKey_cons (c : Char) (cs : List Char) (hc : c ≠ '-') :
    parseKey ('p' :: 'a' :: 'g' :: 'e' :: c :: cs) = (parseDigits (c :: cs) : Int) := by
  simp only [parseKey,
    show List.drop 4 ('p' :: 'a' :: 'g' :: 'e' :: c :: cs) = c :: cs from rfl]
  rw [if_neg hc]

/-- Round trip of the cache key: parsing recovers the page number the key was
built from, for the positive page numbers the player uses. -/
theorem parseKey_mkKey (n : Int) (h : 1 ≤ n) : parseKey (mkKey n) = n := by
  have hrep : mkKey n = 'p' :: 'a' :: 'g' :: 'e' :: natToChars n.toNat := by
    simp [mkKey, intToChars, show ¬ n < 0 by omega]
  obtain ⟨c, cs, hccs, hc⟩ := natToChars_head n.toNat
  rw [hrep, hccs, parseKey_cons c cs hc, ← hccs, parseDigits_natToChars]
  omega

/-! Helper lemmas about the cache-fill fold and the eviction filter. -/

theorem foldl_loadStep_mem (l : List JStr) (c : List JStr) (r : List Int) (k : JStr) :
    k ∈ (l.foldl loadStep (c, r)).1 ↔ (k ∈ c ∨ k ∈ l) := by
  induction l generalizing c r with
  | nil => simp
  | cons a l ih =>
    rw [List.foldl_cons]
    by_cases ha : a ∈ c
    · rw [show loadStep (c, r) a = (c, r) from by simp [loadStep, ha]]
      rw [ih]
      simp only [List.mem_cons]
      constructor
      · rintro (h | h)
        · exact Or.inl h
        · exact Or.inr (Or.inr h)
      · rintro (h | h | h)
        · exact Or.inl h
        · subst h
          exact Or.inl ha
        · exact Or.inr h
    · rw [show loadStep (c, r) a = (c ++ [a], r ++ [parseKey a]) from by simp [loadStep, ha]]
      rw [ih]
      simp only [List.mem_append, List.mem_singleton, List.mem_cons]
      tauto

theorem foldl_loadStep_nop (l : List JStr) (c : List JStr) :
    ∀ r : List Int, (∀ k ∈ l, k ∈ c) → l.foldl loadStep (c, r) = (c, r) := by
  induction l with
  | nil =>
    intro r h
    rfl
  | cons a l ih =>
    intro r h
    have ha : a ∈ c := h a (List.mem_cons_self a l)
    rw [List.foldl_cons, show loadStep (c, r) a = (c, r) from by simp [loadStep, ha]]
    exact ih r (fun k hk => h k (List.mem_cons_of_mem a hk))

/-- The cache key set after `loadPage` is exactly the key set of the window
list, whatever the previous cache contained: every window key missing from
the cache is inserted by the fill loop, and the eviction loop removes every
key outside the window. -/
theorem loadPage_pages_mem (st : PlayerState) (n : Int) (k : JStr) :
    k ∈ (PdfPlayer.loadPage st n).1.pages ↔ k ∈ pageWindow n st.duration := by
  show k ∈ List.filter _ _ ↔ _
  rw [List.mem_filter, foldl_loadStep_mem]
  simp only [decide_eq_true_eq]
  tauto

theorem mem_ite_singleton (b : Prop) [Decidable b] (x k : JStr) :
    k ∈ (if b then [x] else ([] : List JStr)) ↔ (b ∧ k = x) := by
  split_ifs with hb <;> simp [hb]

theorem mem_pageWindow (n dur : Int) (k : JStr) :
    k ∈ pageWindow n dur ↔
      (k = mkKey n ∨ (n - 1 > 0 ∧ k = mkKey (n - 1)) ∨ (n + 1 < dur ∧ k = mkKey (n + 1)) ∨
        (n - 2 > 0 ∧ k = mkKey (n - 2)) ∨ (n + 2 < dur ∧ k = mkKey (n + 2))) := by
  unfold pageWindow
  simp only [List.mem_append, List.mem_singleton, mem_ite_singleton]
  tauto

theorem PlayerState.eta_pv (s : PlayerState) (p : List JStr) (v : Option JStr)
    (hp : p = s.pages) (hv : v = s.visible) :
    ({ s with pages := p, visible := v } : PlayerState) = s := by
  subst hp
  subst hv
  rfl

/-! Claim theorems. -/

/-- C9: for every positive integer page number n, the cache key built as
'page' + n, parsed back by dropping the first four characters and reading the
remainder as a decimal integer, yields n again — so `renderPage` is always
invoked with exactly the page number the cache key was built from. -/
theorem key_roundtrip (n : Int) (h : 1 ≤ n) : parseKey (mkKey n) = n :=
  parseKey_mkKey n h

theorem key_roundtrip_witness : (1 : Int) ≤ 7 ∧ parseKey (mkKey 7) = 7 :=
  ⟨by decide, key_roundtrip 7 (by decide)⟩

/-- C1, counterexample to the claim as stated: on a 10-page document,
`loadPage(9)` leaves the cache with page-number key set {7, 8, 9}, although
10 lies in {9-2, ..., 9+2} ∩ [1, 10] — the code's window condition
`number + i < this.duration()` excludes the last page from the padding. -/
theorem loadPage_window_counterexample :
    (PdfPlayer.loadPage tenPageState 9).1.pages.map parseKey = [9, 8, 7] ∧
    ((1 : Int) ≤ 10 ∧ (10 : Int) ≤ 10 ∧ (9 : Int) - 2 ≤ 10 ∧ (10 : Int) ≤ 9 + 2) ∧
    (10 : Int) ∉ (PdfPlayer.loadPage tenPageState 9).1.pages.map parseKey := by
  decide

/-- C1 (amended): for every state whose document has dur pages and every
requested page n in [1, dur], after `loadPage(n)` the set of page-number keys
in the cache equals {n} ∪ ({n-2, ..., n+2} ∩ [1, dur-1]) — neighbours at or
beyond the page count are excluded, the requested page itself always kept —
page n is made the visible surface, and every previously cached key outside
that set is evicted (membership below is stated for the resulting cache,
whatever the previous cache contained). -/
theorem loadPage_window (st : PlayerState) (dur n m : Int)
    (hdur : st.duration = dur) (h1 : 1 ≤ n) (h2 : n ≤ dur) :
    ((m ∈ (PdfPlayer.loadPage st n).1.pages.map parseKey) ↔
      (m = n ∨ (1 ≤ m ∧ m < dur ∧ n - 2 ≤ m ∧ m ≤ n + 2))) ∧
    (PdfPlayer.loadPage st n).1.visible = some (mkKey n) := by
  constructor
  · rw [List.mem_map]
    constructor
    · rintro ⟨k, hk, hpk⟩
      rw [loadPage_pages_mem, hdur, mem_pageWindow] at hk
      rcases hk with h | ⟨hg, h⟩ | ⟨hg, h⟩ | ⟨hg, h⟩ | ⟨hg, h⟩ <;> subst h <;>
        rw [parseKey_mkKey _ (by omega)] at hpk <;> omega
    · intro hm
      have hm1 : 1 ≤ m := by
        rcases hm with rfl | ⟨hma, _⟩
        · exact h1
        · exact hma
      refine ⟨mkKey m, ?_, parseKey_mkKey m hm1⟩
      rw [loadPage_pages_mem, hdur, mem_pageWindow]
      rcases hm with rfl | ⟨hma, hmb, hmc, hmd⟩
      · exact Or.inl rfl
      · have hcase : m = n ∨ m = n - 1 ∨ m = n + 1 ∨ m = n - 2 ∨ m = n + 2 := by omega
        rcases hcase with rfl | rfl | rfl | rfl | rfl
        · exact Or.inl rfl
        · exact Or.inr (Or.inl ⟨by omega, rfl⟩)
        · exact Or.inr (Or.inr (Or.inl ⟨by omega, rfl⟩))
        · exact Or.inr (Or.inr (Or.inr (Or.inl ⟨by omega, rfl⟩)))
        · exact Or.inr (Or.inr (Or.inr (Or.inr ⟨by omega, rfl⟩)))
  · rfl

theorem loadPage_window_witness :
    tenPageState.duration = 10 ∧ (1 : Int) ≤ 9 ∧ (9 : Int) ≤ 10 ∧
    ((((8 : Int) ∈ (PdfPlayer.loadPage tenPageState 9).1.pages.map parseKey) ↔
        ((8 : Int) = 9 ∨ (1 ≤ (8 : Int) ∧ (8 : Int) < 10 ∧ 9 - 2 ≤ (8 : Int) ∧ (8 : Int) ≤ 9 + 2))) ∧
      (PdfPlayer.loadPage tenPageState 9).1.visible = some (mkKey 9)) :=
  ⟨by decide, by decide, by decide,
    loadPage_window tenPageState 10 9 8 (by decide) (by decide) (by decide)⟩

/-- C6: `loadPage` is idempotent on the player state — a second call with the
same page number finds every page of the window already cached, issues no new
render, evicts nothing and leaves the state exactly as the first call left
it. -/
theorem loadPage_idempotent (st : PlayerState) (n : Int) :
    PdfPlayer.loadPage (PdfPlayer.loadPage st n).1 n = ((PdfPlayer.loadPage st n).1, []) := by
  have hdur : ((PdfPlayer.loadPage st n).1).duration = st.duration := rfl
  have hv : ((PdfPlayer.loadPage st n).1).visible = some (mkKey n) := rfl
  have hmem : ∀ k, k ∈ (PdfPlayer.loadPage st n).1.pages ↔
      k ∈ pageWindow n ((PdfPlayer.loadPage st n).1).duration := by
    intro k
    rw [hdur]
    exact loadPage_pages_mem st n k
  revert hmem hv
  generalize (PdfPlayer.loadPage st n).1 = st1
  intro hv hmem
  have hfold : (pageWindow n st1.duration).foldl loadStep (st1.pages, []) = (st1.pages, []) :=
    foldl_loadStep_nop (pageWindow n st1.duration) st1.pages []
      (fun k hk => (hmem k).mpr hk)
  have hfold1 : ((pageWindow n st1.duration).foldl loadStep (st1.pages, [])).1 = st1.pages :=
    congrArg Prod.fst hfold
  have hfold2 : ((pageWindow n st1.duration).foldl loadStep (st1.pages, [])).2 = [] :=
    congrArg Prod.snd hfold
  have hfilter : st1.pages.filter (fun k => decide (k ∈ pageWindow n st1.duration)) = st1.pages :=
    List.filter_eq_self.mpr (fun k hk => decide_eq_true ((hmem k).mp hk))
  unfold PdfPlayer.loadPage
  rw [hfold1, hfold2, hfilter]
  rw [show ({ st1 with pages := st1.pages, visible := some (mkKey n) } : PlayerState) = st1 from
    PlayerState.eta_pv st1 st1.pages (some (mkKey n)) rfl hv.symm]

/-- C3: on a 10-page document started at page 1, the cache's page-number key
set is {1, 2, 3}; after three `next()` calls, progress is 3 (current page 4
is the visible surface) and the cache's key set is {2, 3, 4, 5, 6}, with
page 1 evicted. -/
theorem ten_page_walkthrough :
    tenPageStart.pages.map parseKey = [1, 2, 3] ∧
    tenPageAfter3Next.progress = 3 ∧
    tenPageAfter3Next.visible = some (mkKey 4) ∧
    tenPageAfter3Next.pages.map parseKey = [2, 3, 4, 5, 6] ∧
    mkKey 1 ∉ tenPageAfter3Next.pages := by
  decide

/-- C5: `previous()` at progress 0 and `next()` at progress duration - 1
return before touching anything, so progress, the cache and the visible
surface are unchanged and no render is started — no wraparound. -/
theorem boundary_noop :
    (∀ st : PlayerState, st.progress = 0 → PdfPlayer.previous st = (st, [])) ∧
    (∀ st : PlayerState, st.progress = st.duration - 1 → PdfPlayer.next st = (st, [])) := by
  constructor
  · intro st h
    unfold PdfPlayer.previous
    rw [if_pos h]
  · intro st h
    unfold PdfPlayer.next
    rw [if_pos h]

theorem boundary_noop_witness :
    (freshState.progress = 0 ∧ PdfPlayer.previous freshState = (freshState, [])) ∧
    (lastPageState.progress = lastPageState.duration - 1 ∧
      PdfPlayer.next lastPageState = (lastPageState, [])) :=
  ⟨⟨rfl, boundary_noop.1 freshState rfl⟩,
    ⟨by decide, boundary_noop.2 lastPageState (by decide)⟩⟩

/-- C4: `canPlayItem` returns true only when the item's path ends in the pdf
suffix, `canPlayMediaType` only when the lower-cased media type is 'book';
in particular the path 'movie.pdf' is accepted and 'movie.mkv' rejected. -/
theorem canPlay_only_pdf_or_book :
    (∀ it : Item, canPlayItem it = true → ∃ p, it.Path = some p ∧ jsEndsWith p pdfStr = true) ∧
    (∀ mt : Option JStr, canPlayMediaType mt = true → jsToLower (mt.getD []) = bookStr) ∧
    canPlayItem { Path := some moviePdf } = true ∧
    canPlayItem { Path := some movieMkv } = false := by
  refine ⟨?_, ?_, by decide, by decide⟩
  · intro it h
    cases hp : it.Path with
    | none => simp [canPlayItem, hp] at h
    | some p =>
      refine ⟨p, rfl, ?_⟩
      simpa [canPlayItem, hp] using h
  · intro mt h
    exact of_decide_eq_true h

theorem canPlay_only_pdf_or_book_witness :
    (∃ p, ({ Path := some moviePdf } : Item).Path = some p ∧ jsEndsWith p pdfStr = true) ∧
    jsToLower ((some bookUpper : Option JStr).getD []) = bookStr :=
  ⟨canPlay_only_pdf_or_book.1 { Path := some moviePdf } (by decide),
    canPlay_only_pdf_or_book.2.1 (some bookUpper) (by decide)⟩

/-- C2, evaluated at the failing input: after `stop()` the cancellation flag
is set and the document-load continuation is indeed a no-op, but the
`getPage` continuation of `renderPage` never reads the flag — resolving after
`stop()` it still resizes the cached canvas (here from the default 300x150 to
250x500 for a 100x200 page in a 500x500 window) and issues the draw, so a
render finishing after playback stopped is not a no-op. -/
theorem renderPage_ignores_cancellation :
    (PdfPlayer.stop freshState).cancellationToken = true ∧
    PdfPlayer.onDocumentLoaded (PdfPlayer.stop freshState) { numPages := 10 } 0 =
      (PdfPlayer.stop freshState, Outcome.pending, []) ∧
    (PdfPlayer.renderPageContinuation (PdfPlayer.stop freshState) newCanvas exPage exWin).2 =
      { width := 250, height := 500 } ∧
    (PdfPlayer.renderPageContinuation (PdfPlayer.stop freshState) newCanvas exPage exWin).2 ≠
      newCanvas := by
  refine ⟨rfl, rfl, ?_, ?_⟩ <;>
    norm_num [PdfPlayer.renderPageContinuation, jsMin, exPage, exWin, newCanvas]

/-- C7, evaluated at the failing input: `play` with startPositionTicks =
20000 on a 10-page document displays page 2 but sets progress to 2, not to
the zero-based index 1 — the resume branch stores the 1-based page number
into progress, breaking `displayed page = progress + 1`. -/
theorem resume_progress_mismatch :
    (PdfPlayer.play freshState exItem 20000 (LoadResult.ok { numPages := 10 })).state.visible =
      some (mkKey 2) ∧
    parseKey (mkKey 2) = 2 ∧
    (PdfPlayer.play freshState exItem 20000 (LoadResult.ok { numPages := 10 })).state.progress
      = 2 ∧
    (PdfPlayer.play freshState exItem 20000 (LoadResult.ok { numPages := 10 })).state.progress
      ≠ parseKey (mkKey 2) - 1 := by
  decide

/-- C8: when the document load fails, no retry is issued (exactly one load
was started), the player state is not mutated (`loaded` stays false, no book
is stored, the cache stays empty, no render starts), and the promise returned
to the caller stays pending — it is never resolved. -/
theorem load_failure_no_mutation (st : PlayerState) (it : Item) (ticks : Nat)
    (hb : st.book = none) :
    (PdfPlayer.play st it ticks LoadResult.err).state.loaded = false ∧
    (PdfPlayer.play st it ticks LoadResult.err).state.book = none ∧
    (PdfPlayer.play st it ticks LoadResult.err).state.pages = [] ∧
    (PdfPlayer.play st it ticks LoadResult.err).outcome = Outcome.pending ∧
    (PdfPlayer.play st it ticks LoadResult.err).rendersStarted = [] ∧
    (PdfPlayer.play st it ticks LoadResult.err).docLoadsStarted = 1 :=
  ⟨rfl, hb, rfl, rfl, rfl, rfl⟩

theorem load_failure_no_mutation_witness :
    freshState.book = none ∧
    ((PdfPlayer.play freshState exItem 0 LoadResult.err).state.loaded = false ∧
      (PdfPlayer.play freshState exItem 0 LoadResult.err).state.book = none ∧
      (PdfPlayer.play freshState exItem 0 LoadResult.err).state.pages = [] ∧
      (PdfPlayer.play freshState exItem 0 LoadResult.err).outcome = Outcome.pending ∧
      (PdfPlayer.play freshState exItem 0 LoadResult.err).rendersStarted = [] ∧
      (PdfPlayer.play freshState exItem 0 LoadResult.err).docLoadsStarted = 1) :=
  ⟨rfl, load_failure_no_mutation freshState exItem 0 rfl⟩

/-- C10: `attachedCallback` initializes an element at most once — when the
element already carries the emby-collapse class the callback returns it
unchanged (no button, class or listener is added), and hence running the
callback twice equals running it once. -/
theorem attachedCallback_init_once :
    (∀ el : CollapseElem, embyCollapseClass ∈ el.classes → attachedCallback el = el) ∧
    (∀ el : CollapseElem, attachedCallback (attachedCallback el) = attachedCallback el) := by
  have hfst : ∀ el : CollapseElem, embyCollapseClass ∈ el.classes → attachedCallback el = el := by
    intro el h
    unfold attachedCallback
    rw [if_pos h]
  refine ⟨hfst, fun el => ?_⟩
  by_cases h : embyCollapseClass ∈ el.classes
  · rw [hfst el h]
    exact hfst el h
  · refine hfst _ ?_
    unfold attachedCallback
    rw [if_neg h]
    simp [onButtonClick, slideUpToHide, slideDownToShow, apply_ite CollapseElem.classes]

theorem attachedCallback_init_once_witness :
    embyCollapseClass ∈ exCollapsed.classes ∧ attachedCallback exCollapsed = exCollapsed :=
  ⟨by decide, attachedCallback_init_once.1 exCollapsed (by decide)⟩

end Jellyfin
